import Mathlib

/-!
Shallow embedding of the agent resolution + RPC forwarding subsystem of the
Agentic-Router repository, together with theorems settling the frozen claims.

The embedding models decoded JSON values, the retry loop of
`A2AClient.send_message` (router_app/services/a2a_client.py), the response
normalizers (`extract_response_text` in src/nodes/forward.py and
`_extract_text_and_thread` / the error branch of `forward` in
src/agentic_router/nodes/forward.py), the thread store of
`a2a_send` (router_app/nodes/a2a_send.py), the assistant resolver
(router_app/services/discovery.py) and the URL builder
(src/agentic_router/nodes/utils.py).
-/

namespace AgenticRouter

/-- Decoded JSON values, as produced by `response.json()` in the source.
Numbers are modelled as integers; no claim involves fractional numbers. -/
inductive Json where
  | null
  | bool (b : Bool)
  | num (n : Int)
  | str (s : String)
  | arr (xs : List Json)
  | obj (fields : List (String × Json))
  deriving Repr

namespace Json

/-- `d.get(k)` on a Python dict: `some v` when the key is present, else `none`.
On non-objects the call sites guard with `isinstance` or fail; lookups on
non-objects are handled at each call site of the embedding. -/
def get : Json → String → Option Json
  | obj fields, k => fields.lookup k
  | _, _ => none

/-- Python truthiness of a decoded JSON value. -/
def truthy : Json → Bool
  | null => false
  | bool b => b
  | num n => n != 0
  | str s => !s.isEmpty
  | arr xs => !xs.isEmpty
  | obj fields => !fields.isEmpty

/-- Whether the value is a dict (`isinstance(v, dict)`). -/
def isObj : Json → Bool
  | obj _ => true
  | _ => false

/-- Whether the value is a list (`isinstance(v, list)`). -/
def isArr : Json → Bool
  | arr _ => true
  | _ => false

/-- The string carried by a `str` value, if any (`isinstance(v, str)`). -/
def asStr : Json → Option String
  | str s => some s
  | _ => none

end Json

mutual

/-- Python `repr` of a decoded JSON value (as used inside containers by
`str(dict)`): strings are single-quoted, `None`/`True`/`False` rendered the
Python way.  String escaping is not modelled; no claim exercises it. -/
def pyRepr : Json → String
  | .null => "None"
  | .bool true => "True"
  | .bool false => "False"
  | .num n => toString n
  | .str s => "'" ++ s ++ "'"
  | .arr xs => "[" ++ pyReprList xs ++ "]"
  | .obj fs => "\x7b" ++ pyReprFields fs ++ "\x7d"

/-- Comma-separated `repr` of list elements. -/
def pyReprList : List Json → String
  | [] => ""
  | [x] => pyRepr x
  | x :: y :: rest => pyRepr x ++ ", " ++ pyReprList (y :: rest)

/-- Comma-separated `repr` of dict entries (`'key': value`). -/
def pyReprFields : List (String × Json) → String
  | [] => ""
  | [f] => "'" ++ f.1 ++ "': " ++ pyRepr f.2
  | f :: g :: rest => "'" ++ f.1 ++ "': " ++ pyRepr f.2 ++ ", " ++ pyReprFields (g :: rest)

end

/-- Python `str` of a decoded JSON value, as interpolated by an f-string:
a string renders as itself, everything else as its `repr`. -/
def pyStr : Json → String
  | .str s => s
  | v => pyRepr v

/-! ## RPC Transport: the retry loop of `A2AClient.send_message`
(`src/router_app/services/a2a_client.py`, lines 69–89).

One loop iteration issues one HTTP POST.  Its observable outcome is either a
timeout (`httpx.TimeoutException`), a network error (`httpx.NetworkError`),
or a response with an HTTP status code and a body that either decodes to JSON
or is malformed.  `raise_for_status()` raises `httpx.HTTPStatusError` for
status ≥ 400 before the body is decoded. -/

/-- The outcome of one network attempt. -/
inductive Outcome where
  | timeoutErr
  | networkErr
  | response (status : Nat) (body : Option Json)
  deriving Repr

/-- Errors raised by `send_message`.  `unexpected` is the trailing
`raise Exception("A2A client failed unexpectedly.")` after the loop. -/
inductive SendErr where
  | timeout
  | network
  | httpStatus (code : Nat)
  | malformedBody
  | unexpected
  deriving Repr, DecidableEq

/-- One iteration's try-block: `post` (outcome), `raise_for_status()`
(raises `HTTPStatusError` for status ≥ 400), then `response.json()` (raises
the JSON decode error — modelled `malformedBody` — on a malformed body). -/
def attemptResult : Outcome → Except SendErr Json
  | .timeoutErr => .error .timeout
  | .networkErr => .error .network
  | .response status body =>
      if 400 ≤ status then .error (.httpStatus status)
      else match body with
        | some j => .ok j
        | none => .error .malformedBody

/-- Whether a raised failure is caught-and-retriable: timeout, network error,
or `HTTPStatusError` with status in `[502, 503, 504]`.  A malformed-body JSON
decode error is not caught by the `except` tuple; a caught `HTTPStatusError`
whose status is not in the retriable set is re-raised at once. -/
def retriable : SendErr → Bool
  | .timeout => true
  | .network => true
  | .httpStatus code => (code == 502) || (code == 503) || (code == 504)
  | .malformedBody => false
  | .unexpected => false

/-- The retry loop `for attempt in range(attempts)`, run on the list of
per-attempt outcomes (one list element per configured attempt, so
`outcomes.length = attempts`).  Returns the result together with the number
of network sends performed and the number of backoff sleeps taken.
The `[]` case is the trailing catch-all
`raise Exception("A2A client failed unexpectedly.")` after the loop, reached
only when the loop body never runs (`attempts = 0`). -/
def sendAttempts : List Outcome → Except SendErr Json × Nat × Nat
  | [] => (.error .unexpected, 0, 0)
  | [o] =>
      -- final iteration: on any failure `attempt + 1 < attempts` is false and
      -- the error is re-raised, whether retriable (after the log) or not
      match attemptResult o with
      | .ok j => (.ok j, 1, 0)
      | .error e => (.error e, 1, 0)
  | o :: r :: rest =>
      match attemptResult o with
      | .ok j => (.ok j, 1, 0)
      | .error e =>
          if retriable e then
            -- caught and `attempt + 1 < attempts`: sleep the backoff, continue
            let p := sendAttempts (r :: rest)
            (p.1, p.2.1 + 1, p.2.2 + 1)
          else (.error e, 1, 0)

/-! ## Response Normalizer, variant 1: `extract_response_text`
(`src/src/nodes/forward.py`, lines 47–107). -/

/-- `v == "lit"` in Python on a decoded JSON value: true only for an equal
string. -/
def optEqStr (v : Option Json) (lit : String) : Bool :=
  match v with
  | some (.str t) => t == lit
  | _ => false

/-- ASCII whitespace stripped by Python `str.strip()` (the further Unicode
whitespace Python strips is not exercised by any claim). -/
def pyIsSpace (c : Char) : Bool :=
  c == ' ' || c == '\t' || c == '\n' || c == '\r' || c == '\x0b' || c == '\x0c'

/-- Truthiness of `s.strip()`: the string has a non-whitespace character. -/
def stripTruthy (s : String) : Bool :=
  s.toList.any fun c => !pyIsSpace c

/-- Errors of `extract_response_text`.  `remoteAgent` is the
`RuntimeError(f"Agent returned error: {...}")` (carrying the interpolated
message), `emptyResult` the `ValueError("No result found ...")`,
`unrecognized` the final `ValueError("Could not extract ...")`, and `pyError`
any Python-level exception (AttributeError/TypeError/KeyError/IndexError)
escaping from the duck-typed accesses. -/
inductive NormErr where
  | remoteAgent (msg : String)
  | emptyResult
  | unrecognized
  | pyError
  deriving Repr, DecidableEq

/-- The repeated block
`if parts and len(parts) > 0: text_part = parts[0];`
`if text_part.get("kind") == "text": return text_part.get("text", "")` —
`.ok (some t)` when the block returns text `t`, `.ok none` when it falls
through, `.error ()` when a Python exception escapes (indexing or attribute
access on a value of the wrong type; a truthy non-list `parts` always ends
in such an exception before any return). -/
def firstPartText (parts : Json) : Except Unit (Option Json) :=
  match parts with
  | .arr [] => .ok none
  | .arr (p :: _) =>
      match p with
      | .obj _ =>
          if optEqStr (p.get "kind") "text" then
            .ok (some ((p.get "text").getD (.str "")))
          else .ok none
      | _ => .error ()
  | other => if other.truthy then .error () else .ok none

/-- The artifacts block: `artifacts = result.get("artifacts", [])`,
`if artifacts and len(artifacts) > 0: artifact = artifacts[0];`
`parts = artifact.get("parts", [])` followed by `firstPartText`. -/
def firstArtifactText (artifacts : Json) : Except Unit (Option Json) :=
  match artifacts with
  | .arr [] => .ok none
  | .arr (a :: _) =>
      match a with
      | .obj _ => firstPartText ((a.get "parts").getD (.arr []))
      | _ => .error ()
  | other => if other.truthy then .error () else .ok none

/-- `reversed(history)` as a list of messages: lists reverse; an empty dict
or empty string iterates nothing; every other value either cannot be
reversed (TypeError) or iterates keys/characters on which the loop body's
`.get` immediately raises (AttributeError). -/
def reversedIter : Json → Except Unit (List Json)
  | .arr xs => .ok xs.reverse
  | .obj [] => .ok []
  | .str s => if s.isEmpty then .ok [] else .error ()
  | _ => .error ()

/-- The history fallback loop of `extract_response_text`: scan the reversed
history for an entry with role `"agent"` whose first part is a text part;
entries without such a part are skipped; a non-dict entry raises. -/
def historyScan (ctx : Option Json) : List Json → Except NormErr (Json × Option Json)
  | [] => .error .unrecognized
  | m :: rest =>
      match m with
      | .obj _ =>
          if optEqStr (m.get "role") "agent" then
            match firstPartText ((m.get "parts").getD (.arr [])) with
            | .error () => .error .pyError
            | .ok (some t) => .ok (t, ctx)
            | .ok none => historyScan ctx rest
          else historyScan ctx rest
      | _ => .error .pyError

/-- The body of `extract_response_text` after the `error` and empty-`result`
gates, for a dict `result`: the first-artifact/first-part shape, then the
reverse history scan, else the final "Could not extract" failure. -/
def extractFromResult (result : Json) : Except NormErr (Json × Option Json) :=
  let ctx := result.get "contextId"
  match firstArtifactText ((result.get "artifacts").getD (.arr [])) with
  | .error () => .error .pyError
  | .ok (some t) => .ok (t, ctx)
  | .ok none =>
      match reversedIter ((result.get "history").getD (.arr [])) with
      | .error () => .error .pyError
      | .ok msgs => historyScan ctx msgs

/-- `extract_response_text(rpc_response)` (src/src/nodes/forward.py 47–107):
a top-level `error` raises `RuntimeError` with the message taken from
`error_info.get("message", str(error_info))`; then `result` is read
(missing/falsy → `EmptyResult`); then the shapes of `extractFromResult`.
A non-dict `rpc_response` always ends in a Python-level exception. -/
def extract_response_text (rpc : Json) : Except NormErr (Json × Option Json) :=
  match rpc with
  | .obj _ =>
      match rpc.get "error" with
      | some e =>
          match e with
          | .obj _ =>
              .error (.remoteAgent (match e.get "message" with
                | some v => pyStr v
                | none => pyStr e))
          | _ => .error .pyError
      | none =>
          let result := (rpc.get "result").getD (.obj [])
          if !result.truthy then .error .emptyResult
          else
            match result with
            | .obj _ => extractFromResult result
            | _ => .error .pyError
  | _ => .error .pyError

/-! ## Response Normalizer, variant 2: `_first_str`, `_from_parts`,
`_extract_text_and_thread` and the normalization phase of `forward`
(`src/src/agentic_router/nodes/forward.py`, lines 43–141 and 184–214). -/

/-- `_first_str(*vals)`: the first argument that is a string with non-empty
strip. -/
def firstStr : List (Option Json) → Option String
  | [] => none
  | v :: rest =>
      match v with
      | some (.str s) => if stripTruthy s then some s else firstStr rest
      | _ => firstStr rest

/-- The per-part body of `_from_parts`: non-dict parts are skipped; a part
returns its `text` when that is a string with non-empty strip, or — the
`{"type": "text", ...}` variant — its `text` whenever `type == "text"` and
`text` is a string (even an empty one), or its `content` when that is a
string with non-empty strip. -/
def fromPartsList : List Json → Option String
  | [] => none
  | p :: rest =>
      match p with
      | .obj _ =>
          match p.get "text" with
          | some (.str t) =>
              if stripTruthy t then some t
              else if optEqStr (p.get "type") "text" then some t
              else
                match p.get "content" with
                | some (.str c) => if stripTruthy c then some c else fromPartsList rest
                | _ => fromPartsList rest
          | _ =>
              match p.get "content" with
              | some (.str c) => if stripTruthy c then some c else fromPartsList rest
              | _ => fromPartsList rest
      | _ => fromPartsList rest

/-- `_from_parts(parts)`: `None` unless `parts` is a list, else the per-part
scan. -/
def fromParts : Json → Option String
  | .arr ps => fromPartsList ps
  | _ => none

/-- The thread/context-id block of `_extract_text_and_thread`:
`_first_str(result.get("contextId"), result.get("threadId"),`
`result.thread.threadId if dict, result.context.threadId if dict)`. -/
def threadIdOf (result : Json) : Option String :=
  firstStr [result.get "contextId", result.get "threadId",
    (match result.get "thread" with
     | some (.obj fs) => Json.get (.obj fs) "threadId"
     | _ => none),
    (match result.get "context" with
     | some (.obj fs) => Json.get (.obj fs) "threadId"
     | _ => none)]

/-- Errors of `_extract_text_and_thread`: the final
`raise KeyError("Unrecognized result shape")`, or a Python-level exception
(`candidates[-1]` IndexError when `messages` is a non-empty list with no
dict entry, attribute errors on a non-dict `result`). -/
inductive EErr where
  | unrecognized
  | pyError
  deriving Repr, DecidableEq

/-- Shape 1 of `_extract_text_and_thread`: `result.artifacts[0].parts`
through `_from_parts`, kept only when truthy (non-empty). -/
def shapeArtifactParts (result : Json) : Option String :=
  match result.get "artifacts" with
  | some (.arr (first :: _)) =>
      match first with
      | .obj _ =>
          match fromParts ((first.get "parts").getD .null) with
          | some t => if t.isEmpty then none else some t
          | none => none
      | _ => none
  | _ => none

/-- Shape 2 of `_extract_text_and_thread`: `result.artifacts[0].text` when a
string with non-empty strip. -/
def shapeArtifactText (result : Json) : Option String :=
  match result.get "artifacts" with
  | some (.arr (first :: _)) =>
      match first with
      | .obj _ =>
          match first.get "text" with
          | some (.str t) => if stripTruthy t then some t else none
          | _ => none
      | _ => none
  | _ => none

/-- The text taken from a chosen `messages` entry: its `content` if a
non-blank string, else `_from_parts(ass.get("parts"))` kept only when
truthy. -/
def messageEntryText (ass : Json) : Option String :=
  match ass.get "content" with
  | some (.str c) =>
      if stripTruthy c then some c
      else
        match fromParts ((ass.get "parts").getD .null) with
        | some t => if t.isEmpty then none else some t
        | none => none
  | _ =>
      match fromParts ((ass.get "parts").getD .null) with
      | some t => if t.isEmpty then none else some t
      | none => none

/-- Shape 3 of `_extract_text_and_thread`: the `messages` block.  The
candidate is the last dict entry with role `"assistant"`/`"ai"`, else the
last dict entry; `.error ()` models the `candidates[-1]` IndexError when
`messages` is a non-empty list with no dict entries. -/
def shapeMessages (result : Json) : Except Unit (Option String) :=
  match result.get "messages" with
  | some (.arr (m₀ :: ms)) =>
      let candidates := (m₀ :: ms).filter fun m => m.isObj
      match candidates.reverse.find? (fun m =>
          optEqStr (m.get "role") "assistant" || optEqStr (m.get "role") "ai") with
      | some ass => .ok (messageEntryText ass)
      | none =>
          match candidates.getLast? with
          | some ass => .ok (messageEntryText ass)
          | none => .error ()
  | _ => .ok none

/-- Shape 4 of `_extract_text_and_thread`: the flat string fields
`output_text`, `content`, `text` (first with non-empty strip). -/
def shapeFlat (result : Json) : Option String :=
  firstStr [result.get "output_text", result.get "content", result.get "text"]

/-- Shape 5 of `_extract_text_and_thread`: OpenAI-style
`choices[0].message.content` when a string with non-empty strip. -/
def shapeChoices (result : Json) : Option String :=
  match result.get "choices" with
  | some (.arr (c₀ :: _)) =>
      match c₀ with
      | .obj _ =>
          match c₀.get "message" with
          | some (.obj mfs) =>
              match Json.get (.obj mfs) "content" with
              | some (.str c) => if stripTruthy c then some c else none
              | _ => none
          | _ => none
      | _ => none
  | _ => none

/-- `_extract_text_and_thread(result)` (lines 71–140): thread id from
`threadIdOf`; text from the artifacts/parts shape, the artifact-text shape,
the messages shape, the flat fields, then OpenAI choices — the first shape
producing truthy text wins — else `KeyError("Unrecognized result shape")`.
A non-dict `result` raises on its first `.get`. -/
def extractTextAndThread (result : Json) : Except EErr (String × Option String) :=
  match result with
  | .obj _ =>
      let tid := threadIdOf result
      match shapeArtifactParts result with
      | some t => .ok (t, tid)
      | none =>
          match shapeArtifactText result with
          | some t => .ok (t, tid)
          | none =>
              match shapeMessages result with
              | .error () => .error .pyError
              | .ok (some t) => .ok (t, tid)
              | .ok none =>
                  match shapeFlat result with
                  | some t => .ok (t, tid)
                  | none =>
                      match shapeChoices result with
                      | some t => .ok (t, tid)
                      | none => .error .unrecognized
  | _ => .error .pyError

/-- Errors of the normalization phase of `forward`. -/
inductive FErr where
  | remoteAgent (msg : String)
  | invalidStructure
  | pyError
  deriving Repr, DecidableEq

/-- The normalization phase of `forward` (lines 184–214), applied to a
decoded JSON-RPC body after `raise_for_status()` passed:
`if isinstance(rpc_response, dict) and "error" in rpc_response:` raise
`RuntimeError(f"Agent error: {error_info.get('message') or str(error_info)}")`;
otherwise `result = rpc_response.get("result", {})` (`{}` for a non-dict
reply) and `_extract_text_and_thread`, any failure of which is re-raised as
`ValueError("Invalid response structure from agent.")`. -/
def forwardNormalize (rpc : Json) : Except FErr (String × Option String) :=
  match rpc with
  | .obj _ =>
      match rpc.get "error" with
      | some e =>
          match e with
          | .obj _ =>
              .error (.remoteAgent (match e.get "message" with
                | some v => if v.truthy then pyStr v else pyStr e
                | none => pyStr e))
          | _ => .error .pyError
      | none =>
          match extractTextAndThread ((rpc.get "result").getD (.obj [])) with
          | .ok p => .ok p
          | .error _ => .error .invalidStructure
  | _ =>
      match extractTextAndThread (.obj []) with
      | .ok p => .ok p
      | .error _ => .error .invalidStructure

/-! ## C4: shape priority of the normalizers. -/

/-- Modelled from the spec's words (claim C4 shape 4): `result.history[*]`
scanned in reverse for the last entry with role `"agent"`, using the same
part rule.  Used only to exhibit the behaviour the claim demands. -/
def claimHistoryScan : List Json → Option String
  | [] => none
  | m :: rest =>
      if optEqStr (m.get "role") "agent" then
        match fromParts ((m.get "parts").getD .null) with
        | some t => if t.isEmpty then claimHistoryScan rest else some t
        | none => claimHistoryScan rest
      else claimHistoryScan rest

/-- Modelled from the spec's words (claim C4 shape 4): the history shape as
the claim documents it. -/
def claimHistoryShape (result : Json) : Option String :=
  match result.get "history" with
  | some (.arr msgs) => claimHistoryScan msgs.reverse
  | _ => none

/-- A `result` whose only extractable text sits in `history` (an entry with
role `"agent"` and a text part). -/
def historyOnlyResult : Json :=
  .obj [("history", .arr [
    .obj [("role", .str "user"),
          ("parts", .arr [.obj [("kind", .str "text"), ("text", .str "q")]])],
    .obj [("role", .str "agent"),
          ("parts", .arr [.obj [("kind", .str "text"), ("text", .str "hi")]])]])]

/-! ## Thread Store: `a2a_send` (`src/router_app/nodes/a2a_send.py`).

The in-memory `_thread_context` dict is keyed by
`(host, port, str(assistant_id))`; for one resolved agent this is a fixed
key.  `a2a_send` reads the stored thread id, calls `send_message` (which
includes `params["thread"] = {"threadId": thread_id}` only when the id is
truthy), extracts `result.artifacts[0].parts[0].text` and
`result.contextId`, and writes the store only when the call succeeded and
the reply's `contextId` is truthy. -/

/-- Resolved connection info of the target agent (`AgentInfo`). -/
structure AgentInfo where
  host : String
  port : Nat
  assistant_id : String
  deriving Repr, DecidableEq

/-- The `_thread_context` store: first-match association list modelling the
Python dict (insertion conses, lookup takes the first match). -/
def ThreadCtx := List ((String × Nat × String) × Json)

/-- Dict read `_thread_context.get(key)`. -/
def threadGet (ctx : ThreadCtx) (key : String × Nat × String) : Option Json :=
  match ctx with
  | [] => none
  | (k, v) :: rest => if key = k then some v else threadGet rest key

/-- Dict write `_thread_context[key] = v`. -/
def threadPut (ctx : ThreadCtx) (key : String × Nat × String) (v : Json) : ThreadCtx :=
  (key, v) :: ctx

/-- `thread_key = (agent_info.host, agent_info.port, str(agent_info.assistant_id))`. -/
def threadKey (info : AgentInfo) : String × Nat × String :=
  (info.host, info.port, info.assistant_id)

/-- The `threadId` value `send_message` puts into the outgoing
`params["thread"]` — present only when the id read from the store is truthy
(`if thread_id:`). -/
def sentThreadId (ctx : ThreadCtx) (key : String × Nat × String) : Option Json :=
  match threadGet ctx key with
  | some v => if v.truthy then some v else none
  | none => none

/-- The try/except body of `a2a_send` after the send: extract
`result.artifacts[0].parts[0].text` and `result.contextId` from the decoded
reply, raise when the text is missing/falsy, store the context id only when
truthy.  Returns the node's outcome — `.ok (response_text, new_thread_id)`
or `.error ()` for the caught-and-reported exception path — and the updated
store.  Indexing `[0]` on anything but a non-empty list, and attribute
access on a non-dict, raise and are caught by the node's
`except Exception`. -/
def a2aSendOutcome (ctx : ThreadCtx) (info : AgentInfo) (reply : Except Unit Json) :
    Except Unit (Json × Option Json) × ThreadCtx :=
  let key := threadKey info
  match reply with
  | .error _ => (.error (), ctx)
  | .ok response =>
      match response with
      | .obj _ =>
          match (response.get "result").getD (.obj []) with
          | .obj rfs =>
              let result := Json.obj rfs
              match (result.get "artifacts").getD (.arr [Json.obj []]) with
              | .arr (a :: _) =>
                  match a with
                  | .obj _ =>
                      match (a.get "parts").getD (.arr [Json.obj []]) with
                      | .arr (p :: _) =>
                          match p with
                          | .obj _ =>
                              match p.get "text" with
                              | some t =>
                                  if t.truthy then
                                    match result.get "contextId" with
                                    | some c =>
                                        if c.truthy then
                                          (.ok (t, some c), threadPut ctx key c)
                                        else (.ok (t, some c), ctx)
                                    | none => (.ok (t, none), ctx)
                                  else (.error (), ctx)
                              | none => (.error (), ctx)
                          | _ => (.error (), ctx)
                      | _ => (.error (), ctx)
                  | _ => (.error (), ctx)
              | _ => (.error (), ctx)
          | _ => (.error (), ctx)
      | _ => (.error (), ctx)

/-- `a2a_send`: reads the stored thread id for the agent's key, sends (the
first component is the `threadId` included in the outgoing request, if
any), and processes the reply per `a2aSendOutcome`. -/
def a2aSend (ctx : ThreadCtx) (info : AgentInfo) (reply : Except Unit Json) :
    Option Json × Except Unit (Json × Option Json) × ThreadCtx :=
  (sentThreadId ctx (threadKey info), a2aSendOutcome ctx info reply)

/-! ## Assistant Resolver: `resolve_assistant_id` and `_search_on_target`
(`src/router_app/services/discovery.py`).

The network operations `_search_on_target` and `_query_registry` are
modelled at their call boundary: each call's observable outcome — its
returned `Optional[UUID]`, or an exception escaping it — is an input.
`resolve_assistant_id` catches any exception from either and falls through
to the next strategy. -/

/-- Per-agent configuration (`AgentConfig` in router_app/types.py), the
fields `resolve_assistant_id` reads.  `assistant_id` is the static UUID, an
always-truthy object when present. -/
structure AgentConfigM where
  host : String
  port : Nat
  name : String
  registry_enabled : Bool
  assistant_id : Option String
  deriving Repr, DecidableEq

/-- The observable outcome of one discovery call: its return value, or an
exception escaping it (caught by `resolve_assistant_id` and logged). -/
inductive DiscoveryOutcome where
  | ret (found : Option String)
  | exn
  deriving Repr, DecidableEq

/-- The `_assistant_id_cache` dict keyed by `(agent_key, host, port)`
(first-match association list; insertion conses). -/
def AssistantCache := List ((String × String × Nat) × String)

/-- Cache read. -/
def cacheGet (cache : AssistantCache) (key : String × String × Nat) : Option String :=
  match cache with
  | [] => none
  | (k, v) :: rest => if key = k then some v else cacheGet rest key

/-- Cache write `_assistant_id_cache[cache_key] = assistant_id`. -/
def cachePut (cache : AssistantCache) (key : String × String × Nat) (v : String) :
    AssistantCache :=
  (key, v) :: cache

/-- Failures of `resolve_assistant_id` (both raised as `ValueError` in the
source, distinguished by their message). -/
inductive ResolveErr where
  | misconfiguredRegistry
  | assistantNotResolved (agentKey : String)
  deriving Repr, DecidableEq

/-- `resolve_assistant_id`: cache hit, else static id (cached), else direct
search on the target (cached on success; exceptions and `None` fall
through), else — only when `registry_enabled` — the registry (missing
`registry_config` is the fatal misconfiguration error), else
`AssistantNotResolved`.  Returns the result, the updated cache, and the
number of `_search_on_target` and `_query_registry` calls performed. -/
def resolveAssistantId (cache : AssistantCache) (agentKey : String)
    (cfg : AgentConfigM) (registryConfig : Option Unit)
    (direct : DiscoveryOutcome) (registry : DiscoveryOutcome) :
    Except ResolveErr String × AssistantCache × Nat × Nat :=
  let key := (agentKey, cfg.host, cfg.port)
  match cacheGet cache key with
  | some a => (.ok a, cache, 0, 0)
  | none =>
      match cfg.assistant_id with
      | some a => (.ok a, cachePut cache key a, 0, 0)
      | none =>
          match direct with
          | .ret (some a) => (.ok a, cachePut cache key a, 1, 0)
          | _ =>
              if cfg.registry_enabled then
                match registryConfig with
                | none => (.error .misconfiguredRegistry, cache, 1, 0)
                | some _ =>
                    match registry with
                    | .ret (some a) => (.ok a, cachePut cache key a, 1, 1)
                    | _ => (.error (.assistantNotResolved agentKey), cache, 1, 1)
              else (.error (.assistantNotResolved agentKey), cache, 1, 0)

/-- Syntactic UUID check of `uuid.UUID(hex=s)`: drop `urn:`/`uuid:`
prefixes and surrounding braces, remove dashes, and require 32 hex digits.
(The exotic forms Python's `int(hex, 16)` additionally tolerates —
whitespace, sign, `0x`, underscores — are not exercised by any claim.) -/
def isUuid (s : String) : Bool :=
  let cs := s.toList
  let cs := if "urn:uuid:".toList.isPrefixOf cs then cs.drop 9 else cs
  let cs := (cs.dropWhile (· = '\x7b')).reverse.dropWhile (· = '\x7d') |>.reverse
  let cs := cs.filter (· ≠ '-')
  cs.length == 32 && cs.all fun c =>
    c.isDigit || ('a' ≤ c && c ≤ 'f') || ('A' ≤ c && c ≤ 'F')

/-- The decoded-response handling of `_search_on_target`
(`src/router_app/services/discovery.py`, lines 93–111): filter the records
whose `name` equals the configured agent name **and** whose `assistant_id`
is truthy; exactly one match parses its `assistant_id` as a UUID (a
malformed id's `ValueError` is caught and yields `None`); zero or several
matches yield `None`.  `.error ()` is an exception escaping the function
(attribute/type errors on non-dict records or a non-iterable reply, or a
non-string truthy `assistant_id` reaching `uuid.UUID`) — the caller catches
and falls through either way. -/
def searchOnTargetDecoded (assistants : Json) (cfg : AgentConfigM) :
    Except Unit (Option String) :=
  match assistants with
  | .arr xs =>
      if xs.all (·.isObj) then
        match xs.filter (fun a =>
            optEqStr (a.get "name") cfg.name
              && ((a.get "assistant_id").getD .null).truthy) with
        | [m] =>
            match m.get "assistant_id" with
            | some (.str s) => if isUuid s then .ok (some s) else .ok none
            | _ => .error ()
        | _ => .ok none
      else .error ()
  | .obj [] => .ok none
  | .str s => if s.isEmpty then .ok none else .error ()
  | _ => .error ()

/-! ## URL Builder: `build_service_url`
(`src/src/agentic_router/nodes/utils.py`, lines 54–110).

Strings are processed as character lists.  `urlparse` is modelled after
CPython's `urlsplit` for the scheme/netloc/path components the code reads
(no claim exercises query or fragment parts beyond their delimiting role),
and `parsed.port` after `SplitResult._hostinfo` / the `port` property. -/

/-- Python `str.strip()` (ASCII whitespace; the rarer Unicode whitespace is
not exercised by any claim). -/
def pyStripWs (cs : List Char) : List Char :=
  ((cs.dropWhile pyIsSpace).reverse.dropWhile pyIsSpace).reverse

/-- Lower-case a character list (`str.lower()`, ASCII). -/
def pyLower (cs : List Char) : List Char :=
  cs.map Char.toLower

/-- Split at the first occurrence of a character: `s.split(c, 1)` when the
character occurs, `none` otherwise. -/
def splitFirstChar (c : Char) : List Char → Option (List Char × List Char)
  | [] => none
  | x :: rest =>
      if x = c then some ([], rest)
      else
        match splitFirstChar c rest with
        | some (a, b) => some (x :: a, b)
        | none => none

/-- Split at the first occurrence of a substring: `s.split(sep, 1)` when the
substring occurs (`sep` non-empty), `none` otherwise.  `isSome` of this is
Python's `sep in s`. -/
def splitFirstSeq (needle : List Char) : List Char → Option (List Char × List Char)
  | [] => none
  | x :: rest =>
      if needle.isPrefixOf (x :: rest) then some ([], (x :: rest).drop needle.length)
      else
        match splitFirstSeq needle rest with
        | some (a, b) => some (x :: a, b)
        | none => none

/-- The substring after the last occurrence of a character; the whole string
when the character does not occur (`s.split(c)[-1]`, `s.rpartition(c)[2]`). -/
def afterLastChar (c : Char) (cs : List Char) : List Char :=
  (cs.reverse.takeWhile (· != c)).reverse

/-- The scheme-prefix repair chain of `build_service_url` (lines 68–81):
`http:`/`https:` with fewer than two slashes, `http//`/`https//`, and the
scheme-lowering pass for well-formed `http://`/`https://` prefixes. -/
def repairScheme (h : List Char) : List Char :=
  let lower := pyLower h
  if "http:".toList.isPrefixOf lower && !("http://".toList.isPrefixOf lower) then
    match splitFirstChar ':' h with
    | some (_, remainder) => "http://".toList ++ remainder.dropWhile (· = '/')
    | none => h
  else if "https:".toList.isPrefixOf lower && !("https://".toList.isPrefixOf lower) then
    match splitFirstChar ':' h with
    | some (_, remainder) => "https://".toList ++ remainder.dropWhile (· = '/')
    | none => h
  else if "http//".toList.isPrefixOf lower then
    "http://".toList ++ (h.drop 6).dropWhile (· = '/')
  else if "https//".toList.isPrefixOf lower then
    "https://".toList ++ (h.drop 7).dropWhile (· = '/')
  else if "http://".toList.isPrefixOf lower || "https://".toList.isPrefixOf lower then
    match splitFirstSeq "://".toList h with
    | some (scheme, remainder) => pyLower scheme ++ "://".toList ++ remainder
    | none => h
  else h

/-- Valid scheme characters (CPython `scheme_chars`). -/
def schemeCharOk (c : Char) : Bool :=
  c.isAlphanum || c == '+' || c == '-' || c == '.'

/-- CPython `urlsplit`, restricted to the `(scheme, netloc, path)`
components the code reads: remove the unsafe bytes `\t\r\n`, split a valid
scheme at the first `:` (first character alphabetic, all characters in
`scheme_chars`), read the netloc after `//` up to the first `/?#`
(mismatched `[`/`]` raise "Invalid IPv6 URL"), and the path up to the first
`?#`. -/
def urlparseLite (url0 : List Char) : Except Unit (List Char × List Char × List Char) :=
  let url := url0.filter fun c => c ≠ '\t' && c ≠ '\r' && c ≠ '\n'
  let sr : List Char × List Char :=
    match splitFirstChar ':' url with
    | some (before, after) =>
        match before with
        | [] => ([], url)
        | b :: _ =>
            if b.isAlpha && before.all schemeCharOk then (pyLower before, after)
            else ([], url)
    | none => ([], url)
  let scheme := sr.1
  let rest := sr.2
  if "//".toList.isPrefixOf rest then
    let nl := (rest.drop 2).takeWhile fun c => c ≠ '/' && c ≠ '?' && c ≠ '#'
    let after := (rest.drop 2).dropWhile fun c => c ≠ '/' && c ≠ '?' && c ≠ '#'
    if nl.contains '[' != nl.contains ']' then .error ()
    else .ok (scheme, nl, after.takeWhile fun c => c ≠ '?' && c ≠ '#')
  else .ok (scheme, [], rest.takeWhile fun c => c ≠ '?' && c ≠ '#')

/-- `parsed.port` via `SplitResult._hostinfo`: the port substring is what
follows the first `:` after the bracketed host (or after the first `:` of
the host when unbracketed), userinfo before `@` dropped; empty means no
port; non-empty must be a number in 0..65535, else ValueError.  (CPython's
`int(port, 10)` additionally tolerates whitespace/sign/underscores; those
forms are not exercised by any claim.) -/
def netlocPort (netloc : List Char) : Except Unit (Option Nat) :=
  let hostinfo := afterLastChar '@' netloc
  let portStr : List Char :=
    match splitFirstChar '[' hostinfo with
    | some (_, bracketed) =>
        match splitFirstChar ']' bracketed with
        | some (_, afterBr) =>
            match splitFirstChar ':' afterBr with
            | some (_, p) => p
            | none => []
        | none => []
    | none =>
        match splitFirstChar ':' hostinfo with
        | some (_, p) => p
        | none => []
  if portStr.isEmpty then .ok none
  else if portStr.all (·.isDigit) then
    let v := portStr.foldl (fun n c => n * 10 + (c.toNat - 48)) 0
    if v ≤ 65535 then .ok (some v) else .error ()
  else .error ()

/-- Failures of `build_service_url` (all `ValueError` in the source):
`emptyHost` is "Host cannot be empty." (raised both for a falsy input and
for an empty netloc without protocol), `noHostname` is "Host must include a
hostname when a protocol is provided.", `invalidIpv6` the `urlparse`
bracket-mismatch error, `invalidPort` the `parsed.port` ValueError. -/
inductive UrlErr where
  | emptyHost
  | noHostname
  | invalidIpv6
  | invalidPort
  deriving Repr, DecidableEq

/-- Host normalization and parsing (lines 63–90): empty check, strip,
scheme repair, then `urlparse` — of the host itself when it contains
`://`, else of `http://{host}` — requiring a non-empty netloc. -/
def hostParse (host : String) : Except UrlErr (List Char × List Char × List Char) :=
  if host.isEmpty then .error .emptyHost
  else
    let h := repairScheme (pyStripWs host.toList)
    if (splitFirstSeq "://".toList h).isSome then
      match urlparseLite h with
      | .error () => .error .invalidIpv6
      | .ok (s, nl, p) => if nl.isEmpty then .error .noHostname else .ok (s, nl, p)
    else
      match urlparseLite ("http://".toList ++ h) with
      | .error () => .error .invalidIpv6
      | .ok (s, nl, p) => if nl.isEmpty then .error .emptyHost else .ok (s, nl, p)

/-- The path-composition block of `build_service_url` (lines 100–108):
base-path and endpoint segments with empty ones dropped (`strip("/")`
before the split only removes segments the non-empty filter drops anyway),
joined by `/`; with no segments, `/` exactly when the stripped endpoint
starts with `/` or the base path ends with `/`. -/
def composePath (basePath : List Char) (endpoint : String) : List Char :=
  let baseSegs := (List.splitOn '/' basePath).filter (· ≠ [])
  let epClean := pyStripWs endpoint.toList
  let epSegs := (List.splitOn '/' epClean).filter (· ≠ [])
  let segs := baseSegs ++ epSegs
  if segs.isEmpty then
    if "/".toList.isPrefixOf epClean || basePath.getLast? == some '/' then
      "/".toList
    else []
  else '/' :: List.intercalate ['/'] segs

/-- `build_service_url(host, port, endpoint)` (lines 54–110): parse the
host, default the scheme to `http`, append the configured port unless the
netloc already carries one (`parsed.port is None and ":" not in tail`,
`tail = netloc.split(']')[-1]`), compose the path, and reassemble per
`urlunparse`. -/
def build_service_url (host : String) (port : Nat) (endpoint : String) :
    Except UrlErr String :=
  match hostParse host with
  | .error e => .error e
  | .ok (scheme0, netloc0, basePath) =>
      let scheme := if scheme0.isEmpty then "http".toList else scheme0
      let tail := afterLastChar ']' netloc0
      match netlocPort netloc0 with
      | .error () => .error .invalidPort
      | .ok pp =>
          let netloc :=
            if pp.isNone && !(tail.contains ':') then
              netloc0 ++ ':' :: (toString port).toList
            else netloc0
          .ok ((scheme ++ "://".toList ++ netloc ++ composePath basePath endpoint).asString)

/-- Helper: the try-block of one attempt never raises the sentinel
`unexpected` error reserved for the trailing raise after the loop. -/
theorem attemptResult_error_ne_unexpected (o : Outcome) (e : SendErr)
    (h : attemptResult o = .error e) : e ≠ .unexpected := by
  intro hcontra
  subst hcontra
  cases o with
  | timeoutErr => simp [attemptResult] at h
  | networkErr => simp [attemptResult] at h
  | response s b =>
      simp only [attemptResult] at h
      split at h
      · simp at h
      · cases b <;> simp_all

/-- C1: for every configured attempts N ≥ 1, `send_message` retries a failed
attempt only when the failure is a connection/network error, a timeout, or an
HTTP status in {502, 503, 504}: any non-retriable failure (e.g. a 404, or a
successful status with a malformed body) fails immediately on the attempt
that saw it, with no further sends and no sleeps; a retriable failure with
attempts remaining performs exactly one more send and one backoff sleep and
continues.  In particular, with attempts = 3, two 503s followed by a 200
yield success with 3 sends and 2 sleeps, and a 404 on the first attempt
fails with 1 send and 0 sleeps. -/
theorem send_message_retry_policy :
    (∀ (o : Outcome) (rest : List Outcome) (e : SendErr),
        attemptResult o = .error e → retriable e = false →
        sendAttempts (o :: rest) = (.error e, 1, 0)) ∧
    (∀ (o : Outcome) (e : SendErr) (r : Outcome) (rest : List Outcome),
        attemptResult o = .error e → retriable e = true →
        sendAttempts (o :: r :: rest) =
          ((sendAttempts (r :: rest)).1,
            (sendAttempts (r :: rest)).2.1 + 1,
            (sendAttempts (r :: rest)).2.2 + 1)) ∧
    (∀ (b₁ b₂ : Option Json) (j : Json),
        sendAttempts [.response 503 b₁, .response 503 b₂, .response 200 (some j)]
          = (.ok j, 3, 2)) ∧
    (∀ (b : Option Json) (o₂ o₃ : Outcome),
        sendAttempts [.response 404 b, o₂, o₃] = (.error (.httpStatus 404), 1, 0)) := by
  refine ⟨?_, ?_, ?_, ?_⟩
  · intro o rest e h1 h2
    cases rest <;> simp [sendAttempts, h1, h2]
  · intro o e r rest h1 h2
    simp [sendAttempts, h1, h2]
  · intro b₁ b₂ j
    rfl
  · intro b o₂ o₃
    rfl

/-- Witness for C1 at concrete inputs: a malformed 200 body fails at once;
a timeout followed by a good 200 retries once. -/
theorem send_message_retry_policy_witness :
    sendAttempts [.response 200 none] = (.error .malformedBody, 1, 0) ∧
    sendAttempts [.timeoutErr, .response 200 (some .null)] = (.ok .null, 2, 1) := by
  constructor
  · exact send_message_retry_policy.1 (.response 200 none) [] .malformedBody rfl rfl
  · have h := send_message_retry_policy.2.1 .timeoutErr .timeout
      (.response 200 (some .null)) [] rfl rfl
    simpa using h

/-- C9: for attempts ≥ 1 (a nonempty list of per-attempt outcomes) the retry
loop always terminates by returning the decoded body or re-raising an
attempt's error, so the trailing catch-all
`raise Exception("A2A client failed unexpectedly.")` after the loop — the
`unexpected` result — is unreachable. -/
theorem send_message_trailing_raise_unreachable (o : Outcome) (rest : List Outcome) :
    (sendAttempts (o :: rest)).1 ≠ Except.error SendErr.unexpected := by
  induction rest generalizing o with
  | nil =>
      cases h : attemptResult o with
      | ok j => simp [sendAttempts, h]
      | error e =>
          have he := attemptResult_error_ne_unexpected o e h
          simp [sendAttempts, h, he]
  | cons r rest ih =>
      cases h : attemptResult o with
      | ok j => simp [sendAttempts, h]
      | error e =>
          have he := attemptResult_error_ne_unexpected o e h
          simp only [sendAttempts, h]
          split
          · exact ih r
          · simp [he]

/-- Witness for C9 at a concrete input. -/
theorem send_message_trailing_raise_unreachable_witness :
    (sendAttempts [Outcome.timeoutErr]).1 ≠ Except.error SendErr.unexpected :=
  send_message_trailing_raise_unreachable Outcome.timeoutErr []

/-- C3 counterexample: a reply whose top-level `error` object carries
`message: ""` (the field exists).  The claim requires the RemoteAgentError
message to be taken from `error.message`, i.e. to be `""`; the `forward`
normalizer instead falls back to the string form of the whole error object
because `error_info.get("message") or str(error_info)` treats the empty
string as absent. -/
theorem error_message_source_counterexample :
    forwardNormalize (.obj [("error", .obj [("message", .str "")]),
        ("result", .obj [("output_text", .str "x")])])
      = .error (.remoteAgent "\x7b'message': ''\x7d") ∧
    ("\x7b'message': ''\x7d" : String) ≠ "" := by
  exact ⟨rfl, by decide⟩

/-- C3 (amended): for every decoded reply carrying a top-level `error`
object, both normalizers fail with RemoteAgentError regardless of any
`result` also present, with no text extraction attempted.
`extract_response_text` takes the message from `error.message` whenever the
field exists (else the string form of the whole error object);
`forward` additionally falls back to the string form when `error.message`
is present but falsy (e.g. the empty string). -/
theorem error_object_precedence (rpc e : Json)
    (hget : rpc.get "error" = some e) (hobj : e.isObj = true) :
    extract_response_text rpc =
      .error (.remoteAgent (match e.get "message" with
        | some v => pyStr v
        | none => pyStr e)) ∧
    forwardNormalize rpc =
      .error (.remoteAgent (match e.get "message" with
        | some v => if v.truthy then pyStr v else pyStr e
        | none => pyStr e)) := by
  cases rpc with
  | obj fs =>
      cases e with
      | obj efs =>
          constructor <;> simp [extract_response_text, forwardNormalize, hget]
      | null => simp [Json.isObj] at hobj
      | bool b => simp [Json.isObj] at hobj
      | num n => simp [Json.isObj] at hobj
      | str s => simp [Json.isObj] at hobj
      | arr xs => simp [Json.isObj] at hobj
  | null => simp [Json.get] at hget
  | bool b => simp [Json.get] at hget
  | num n => simp [Json.get] at hget
  | str s => simp [Json.get] at hget
  | arr xs => simp [Json.get] at hget

/-- Witness for C3 (amended) at a concrete reply that also carries a
`result`. -/
theorem error_object_precedence_witness :
    extract_response_text (.obj [("error", .obj [("message", .str "boom")]),
        ("result", .obj [("output_text", .str "x")])])
      = .error (.remoteAgent "boom") ∧
    forwardNormalize (.obj [("error", .obj [("message", .str "boom")]),
        ("result", .obj [("output_text", .str "x")])])
      = .error (.remoteAgent "boom") := by
  have h := error_object_precedence
    (.obj [("error", .obj [("message", .str "boom")]),
        ("result", .obj [("output_text", .str "x")])])
    (.obj [("message", .str "boom")]) rfl rfl
  simpa using h

/-- C4 counterexample: on a `result` whose only text lives in `history`,
the claim's shape list says extraction must yield `"hi"` via shape (4)
(shapes 1–3 yield nothing), yet `_extract_text_and_thread` — which never
scans `history` — fails with UnrecognizedResponseShape. -/
theorem shape_priority_counterexample :
    extractTextAndThread historyOnlyResult = .error .unrecognized ∧
    claimHistoryShape historyOnlyResult = some "hi" ∧
    shapeArtifactParts historyOnlyResult = none ∧
    shapeArtifactText historyOnlyResult = none ∧
    shapeMessages historyOnlyResult = .ok none := by
  exact ⟨rfl, rfl, rfl, rfl, rfl⟩

/-- Helper: erasing entries of one key from a dict leaves lookups of other
keys unchanged. -/
theorem get_filter_ne (fs : List (String × Json)) (k banned : String)
    (hne : k ≠ banned) :
    Json.get (.obj (fs.filter fun f => f.1 ≠ banned)) k = Json.get (.obj fs) k := by
  induction fs with
  | nil => rfl
  | cons f rest ih =>
      simp only [Json.get, decide_not] at ih ⊢
      by_cases hf : f.1 = banned
      · have hk : (k == banned) = false := beq_eq_false_iff_ne.mpr hne
        simp [List.filter_cons, hf, List.lookup, hk, ih]
      · simp only [List.filter_cons, decide_eq_false hf, Bool.not_false, if_true]
        by_cases hk : (k == f.1) = true
        · simp [List.lookup, hk]
        · simp [List.lookup, hk, ih]

/-- Helper: erasing `history` does not change the thread-id block. -/
theorem threadIdOf_erase_history (fs : List (String × Json)) :
    threadIdOf (.obj (fs.filter fun f => f.1 ≠ "history")) = threadIdOf (.obj fs) := by
  simp only [threadIdOf,
    get_filter_ne fs "contextId" "history" (by decide),
    get_filter_ne fs "threadId" "history" (by decide),
    get_filter_ne fs "thread" "history" (by decide),
    get_filter_ne fs "context" "history" (by decide)]

/-- Helper: erasing `history` does not change shape 1. -/
theorem shapeArtifactParts_erase_history (fs : List (String × Json)) :
    shapeArtifactParts (.obj (fs.filter fun f => f.1 ≠ "history"))
      = shapeArtifactParts (.obj fs) := by
  simp only [shapeArtifactParts, get_filter_ne fs "artifacts" "history" (by decide)]

/-- Helper: erasing `history` does not change shape 2. -/
theorem shapeArtifactText_erase_history (fs : List (String × Json)) :
    shapeArtifactText (.obj (fs.filter fun f => f.1 ≠ "history"))
      = shapeArtifactText (.obj fs) := by
  simp only [shapeArtifactText, get_filter_ne fs "artifacts" "history" (by decide)]

/-- Helper: erasing `history` does not change shape 3. -/
theorem shapeMessages_erase_history (fs : List (String × Json)) :
    shapeMessages (.obj (fs.filter fun f => f.1 ≠ "history"))
      = shapeMessages (.obj fs) := by
  simp only [shapeMessages, get_filter_ne fs "messages" "history" (by decide)]

/-- Helper: erasing `history` does not change the flat-field shape. -/
theorem shapeFlat_erase_history (fs : List (String × Json)) :
    shapeFlat (.obj (fs.filter fun f => f.1 ≠ "history")) = shapeFlat (.obj fs) := by
  simp only [shapeFlat,
    get_filter_ne fs "output_text" "history" (by decide),
    get_filter_ne fs "content" "history" (by decide),
    get_filter_ne fs "text" "history" (by decide)]

/-- Helper: erasing `history` does not change the choices shape. -/
theorem shapeChoices_erase_history (fs : List (String × Json)) :
    shapeChoices (.obj (fs.filter fun f => f.1 ≠ "history"))
      = shapeChoices (.obj fs) := by
  simp only [shapeChoices, get_filter_ne fs "choices" "history" (by decide)]

/-- Helper: `extractFromResult` reads only `contextId`, `artifacts` and
`history`; erasing any other key changes nothing. -/
theorem extractFromResult_erase (fs : List (String × Json)) (banned : String)
    (h1 : "contextId" ≠ banned) (h2 : "artifacts" ≠ banned)
    (h3 : "history" ≠ banned) :
    extractFromResult (.obj (fs.filter fun f => f.1 ≠ banned))
      = extractFromResult (.obj fs) := by
  simp only [extractFromResult, get_filter_ne fs "contextId" banned h1,
    get_filter_ne fs "artifacts" banned h2, get_filter_ne fs "history" banned h3]

/-- C4 (amended): each normalizer tries its own shapes strictly in order
and the first shape yielding truthy text wins.  `_extract_text_and_thread`
tries (1) `artifacts[0].parts` via the code's part rule,
(2) `artifacts[0].text`, (3) `messages` with the last assistant/ai entry
preferred, (4) the flat fields `output_text`/`content`/`text`,
(5) `choices[0].message.content`, and fails with UnrecognizedResponseShape
when none yields text; it never scans `history` (erasing that key changes
nothing).  `extract_response_text` tries only `artifacts[0].parts[0]` (first
part, `kind == "text"`) and then the reverse `history` scan for role
`"agent"`, ignoring `messages`, the flat fields and `choices`. -/
theorem shape_priority (fs : List (String × Json)) :
    (∀ t, shapeArtifactParts (.obj fs) = some t →
        extractTextAndThread (.obj fs) = .ok (t, threadIdOf (.obj fs))) ∧
    (∀ t, shapeArtifactParts (.obj fs) = none →
        shapeArtifactText (.obj fs) = some t →
        extractTextAndThread (.obj fs) = .ok (t, threadIdOf (.obj fs))) ∧
    (∀ t, shapeArtifactParts (.obj fs) = none →
        shapeArtifactText (.obj fs) = none →
        shapeMessages (.obj fs) = .ok (some t) →
        extractTextAndThread (.obj fs) = .ok (t, threadIdOf (.obj fs))) ∧
    (∀ t, shapeArtifactParts (.obj fs) = none →
        shapeArtifactText (.obj fs) = none →
        shapeMessages (.obj fs) = .ok none →
        shapeFlat (.obj fs) = some t →
        extractTextAndThread (.obj fs) = .ok (t, threadIdOf (.obj fs))) ∧
    (∀ t, shapeArtifactParts (.obj fs) = none →
        shapeArtifactText (.obj fs) = none →
        shapeMessages (.obj fs) = .ok none →
        shapeFlat (.obj fs) = none →
        shapeChoices (.obj fs) = some t →
        extractTextAndThread (.obj fs) = .ok (t, threadIdOf (.obj fs))) ∧
    (shapeArtifactParts (.obj fs) = none →
        shapeArtifactText (.obj fs) = none →
        shapeMessages (.obj fs) = .ok none →
        shapeFlat (.obj fs) = none →
        shapeChoices (.obj fs) = none →
        extractTextAndThread (.obj fs) = .error .unrecognized) ∧
    (extractTextAndThread (.obj (fs.filter fun f => f.1 ≠ "history"))
        = extractTextAndThread (.obj fs)) ∧
    (∀ t, firstArtifactText ((Json.get (.obj fs) "artifacts").getD (.arr []))
          = .ok (some t) →
        extractFromResult (.obj fs) = .ok (t, Json.get (.obj fs) "contextId")) ∧
    (∀ msgs, firstArtifactText ((Json.get (.obj fs) "artifacts").getD (.arr []))
          = .ok none →
        reversedIter ((Json.get (.obj fs) "history").getD (.arr [])) = .ok msgs →
        extractFromResult (.obj fs)
          = historyScan (Json.get (.obj fs) "contextId") msgs) ∧
    (∀ banned, banned ∈ ["messages", "output_text", "content", "text", "choices"] →
        extractFromResult (.obj (fs.filter fun f => f.1 ≠ banned))
          = extractFromResult (.obj fs)) := by
  refine ⟨?_, ?_, ?_, ?_, ?_, ?_, ?_, ?_, ?_, ?_⟩
  · intro t h1
    simp [extractTextAndThread, h1]
  · intro t h1 h2
    simp [extractTextAndThread, h1, h2]
  · intro t h1 h2 h3
    simp [extractTextAndThread, h1, h2, h3]
  · intro t h1 h2 h3 h4
    simp [extractTextAndThread, h1, h2, h3, h4]
  · intro t h1 h2 h3 h4 h5
    simp [extractTextAndThread, h1, h2, h3, h4, h5]
  · intro h1 h2 h3 h4 h5
    simp [extractTextAndThread, h1, h2, h3, h4, h5]
  · simp only [extractTextAndThread, threadIdOf_erase_history,
      shapeArtifactParts_erase_history, shapeArtifactText_erase_history,
      shapeMessages_erase_history, shapeFlat_erase_history,
      shapeChoices_erase_history]
  · intro t h1
    simp [extractFromResult, h1]
  · intro msgs h1 h2
    simp [extractFromResult, h1, h2]
  · intro banned hb
    fin_cases hb <;>
      exact extractFromResult_erase fs _ (by decide) (by decide) (by decide)

/-- Witness for C4 (amended): the flat field wins when earlier shapes are
empty, and erasing a `history` entry changes nothing. -/
theorem shape_priority_witness :
    extractTextAndThread (.obj [("output_text", .str "flat")])
      = .ok ("flat", threadIdOf (.obj [("output_text", .str "flat")])) ∧
    extractTextAndThread
        (.obj (([(("history" : String), Json.str "junk")]).filter fun f => f.1 ≠ "history"))
      = extractTextAndThread (.obj [(("history" : String), Json.str "junk")]) := by
  constructor
  · exact (shape_priority [("output_text", .str "flat")]).2.2.2.1 "flat" rfl rfl rfl rfl
  · exact (shape_priority [(("history" : String), Json.str "junk")]).2.2.2.2.2.2.1

/-- Helper: a fresh dict write is what a read of the same key sees. -/
theorem threadGet_put_same (ctx : ThreadCtx) (k : String × Nat × String) (v : Json) :
    threadGet (threadPut ctx k v) k = some v := by
  simp [threadGet, threadPut]

/-- Helper: the store after `a2a_send` is the old store with the peer's
context id written at the agent's key when the call succeeded with a truthy
context id, and is the old store unchanged in every other case. -/
theorem a2aSendOutcome_spec (ctx : ThreadCtx) (info : AgentInfo)
    (reply : Except Unit Json) (res : Except Unit (Json × Option Json))
    (ctx' : ThreadCtx) (h : a2aSendOutcome ctx info reply = (res, ctx')) :
    (∀ t c, res = .ok (t, some c) → c.truthy = true →
        ctx' = threadPut ctx (threadKey info) c) ∧
    ((∀ t c, res = .ok (t, some c) → c.truthy = true → False) → ctx' = ctx) := by
  simp only [a2aSendOutcome] at h
  repeat' split at h
  all_goals injection h with h1 h2
  all_goals subst h1
  all_goals subst h2
  all_goals refine ⟨fun t c hc htc => ?_, fun hP => ?_⟩
  all_goals try simp at hc
  all_goals try rfl
  all_goals simp_all

/-- C2: for an agent's key, `a2a_send` reads the currently stored thread id
before sending (the outgoing `thread.threadId` is exactly the stored value,
when truthy), and after a forward the stored value equals the peer's new
thread id when the reply carried a truthy one and is otherwise unchanged.
Consequently, after a successful forward whose reply carries thread id
`"abc"`, the next forward for the same key sends `thread.threadId = "abc"`,
and when that next reply omits a thread id, the call after it still sends
`"abc"`. -/
theorem thread_store_invariant (ctx : ThreadCtx) (info : AgentInfo)
    (reply : Except Unit Json) :
    (a2aSend ctx info reply).1 = sentThreadId ctx (threadKey info) ∧
    (∀ t c, (a2aSend ctx info reply).2.1 = .ok (t, some c) → c.truthy = true →
        threadGet (a2aSend ctx info reply).2.2 (threadKey info) = some c) ∧
    ((∀ t c, (a2aSend ctx info reply).2.1 = .ok (t, some c) → c.truthy = true → False) →
        (a2aSend ctx info reply).2.2 = ctx) ∧
    (∀ t₁, (a2aSend ctx info reply).2.1 = .ok (t₁, some (.str "abc")) →
        ∀ r₂, (a2aSend (a2aSend ctx info reply).2.2 info r₂).1 = some (.str "abc") ∧
          (∀ t₂, (a2aSend (a2aSend ctx info reply).2.2 info r₂).2.1 = .ok (t₂, none) →
            ∀ r₃, (a2aSend (a2aSend (a2aSend ctx info reply).2.2 info r₂).2.2 info r₃).1
                = some (.str "abc"))) := by
  obtain ⟨hupd, hpres⟩ := a2aSendOutcome_spec ctx info reply
    (a2aSendOutcome ctx info reply).1 (a2aSendOutcome ctx info reply).2 rfl
  refine ⟨rfl, ?_, ?_, ?_⟩
  · intro t c hc htc
    have := hupd t c hc htc
    simp only [a2aSend] at *
    rw [this, threadGet_put_same]
  · intro hP
    exact hpres hP
  · intro t₁ h₁ r₂
    have hstore₁ : threadGet (a2aSend ctx info reply).2.2 (threadKey info)
        = some (.str "abc") := by
      have := hupd t₁ (.str "abc") h₁ (by decide)
      simp only [a2aSend] at *
      rw [this, threadGet_put_same]
    have hsent₂ : (a2aSend (a2aSend ctx info reply).2.2 info r₂).1 = some (.str "abc") := by
      simp only [a2aSend, sentThreadId]
      simp only [a2aSend] at hstore₁
      rw [hstore₁]
      rfl
    refine ⟨hsent₂, ?_⟩
    intro t₂ h₂ r₃
    obtain ⟨hupd₂, hpres₂⟩ := a2aSendOutcome_spec (a2aSend ctx info reply).2.2 info r₂
      (a2aSendOutcome (a2aSend ctx info reply).2.2 info r₂).1
      (a2aSendOutcome (a2aSend ctx info reply).2.2 info r₂).2 rfl
    have hstore₂ : (a2aSend (a2aSend ctx info reply).2.2 info r₂).2.2
        = (a2aSend ctx info reply).2.2 := by
      refine hpres₂ ?_
      intro t c hc htc
      simp only [a2aSend] at h₂ hc
      rw [h₂] at hc
      simp at hc
    simp only [a2aSend, sentThreadId]
    simp only [a2aSend] at hstore₂ hstore₁
    rw [hstore₂, hstore₁]
    rfl

/-- Witness for C2 at a concrete run: an empty store, a reply carrying
`contextId = "abc"`, then a reply that omits it. -/
theorem thread_store_invariant_witness :
    (a2aSend [] ⟨"127.0.0.1", 9001, "3fae"⟩
        (.ok (.obj [("result", .obj [("contextId", .str "abc"),
          ("artifacts", .arr [.obj [("parts", .arr [.obj [("kind", .str "text"),
            ("text", .str "2 open MRs")]])]])])]))).2.1
      = .ok (.str "2 open MRs", some (.str "abc")) ∧
    (a2aSend (a2aSend [] ⟨"127.0.0.1", 9001, "3fae"⟩
        (.ok (.obj [("result", .obj [("contextId", .str "abc"),
          ("artifacts", .arr [.obj [("parts", .arr [.obj [("kind", .str "text"),
            ("text", .str "2 open MRs")]])]])])]))).2.2 ⟨"127.0.0.1", 9001, "3fae"⟩
        (.ok (.obj [("result", .obj [("artifacts",
          .arr [.obj [("parts", .arr [.obj [("kind", .str "text"),
            ("text", .str "still here")]])]])])]))).1
      = some (.str "abc") := by
  constructor
  · rfl
  · exact ((thread_store_invariant [] ⟨"127.0.0.1", 9001, "3fae"⟩
      (.ok (.obj [("result", .obj [("contextId", .str "abc"),
        ("artifacts", .arr [.obj [("parts", .arr [.obj [("kind", .str "text"),
          ("text", .str "2 open MRs")]])]])])]))).2.2.2 (.str "2 open MRs") rfl
      (.ok (.obj [("result", .obj [("artifacts",
        .arr [.obj [("parts", .arr [.obj [("kind", .str "text"),
          ("text", .str "still here")]])]])])]))).1

/-- Helper: a fresh cache write is what a read of the same key sees. -/
theorem cacheGet_put_same (cache : AssistantCache) (k : String × String × Nat)
    (v : String) : cacheGet (cachePut cache k v) k = some v := by
  simp [cacheGet, cachePut]

/-- C5: a resolve that succeeds — via cache, static id, direct discovery or
registry — leaves the returned id in the cache under
`(agentKey, host, port)`, and a second resolve with the same key returns
that id from the cache with no discovery I/O (zero `_search_on_target` and
zero `_query_registry` calls) and no cache change, whatever its own
configuration flags and discovery oracles would have said. -/
theorem resolver_caches_success (cache : AssistantCache) (agentKey : String)
    (cfg : AgentConfigM) (regCfg : Option Unit) (d r : DiscoveryOutcome)
    (a : String) (cache' : AssistantCache) (dc rc : Nat)
    (h : resolveAssistantId cache agentKey cfg regCfg d r = (.ok a, cache', dc, rc)) :
    cacheGet cache' (agentKey, cfg.host, cfg.port) = some a ∧
    ∀ (cfg₂ : AgentConfigM) (regCfg₂ : Option Unit) (d₂ r₂ : DiscoveryOutcome),
      cfg₂.host = cfg.host → cfg₂.port = cfg.port →
      resolveAssistantId cache' agentKey cfg₂ regCfg₂ d₂ r₂ = (.ok a, cache', 0, 0) := by
  have hcache : cacheGet cache' (agentKey, cfg.host, cfg.port) = some a := by
    simp only [resolveAssistantId] at h
    repeat' split at h
    all_goals simp at h
    all_goals obtain ⟨rfl, hcc, -⟩ := h
    all_goals rw [← hcc]
    all_goals first
      | assumption
      | exact cacheGet_put_same _ _ _
  refine ⟨hcache, ?_⟩
  intro cfg₂ regCfg₂ d₂ r₂ hh hp
  simp [resolveAssistantId, hh, hp, hcache]

/-- Witness for C5: a successful direct discovery populates the cache and
the second resolve is a pure cache hit. -/
theorem resolver_caches_success_witness :
    cacheGet (resolveAssistantId [] "gitlab"
        ⟨"127.0.0.1", 9001, "gitlab-agent", false, none⟩ none
        (.ret (some "3fae")) (.ret none)).2.1 ("gitlab", "127.0.0.1", 9001)
      = some "3fae" ∧
    resolveAssistantId (resolveAssistantId [] "gitlab"
        ⟨"127.0.0.1", 9001, "gitlab-agent", false, none⟩ none
        (.ret (some "3fae")) (.ret none)).2.1 "gitlab"
        ⟨"127.0.0.1", 9001, "gitlab-agent", false, none⟩ none .exn .exn
      = (.ok "3fae", (resolveAssistantId [] "gitlab"
          ⟨"127.0.0.1", 9001, "gitlab-agent", false, none⟩ none
          (.ret (some "3fae")) (.ret none)).2.1, 0, 0) := by
  have h := resolver_caches_success [] "gitlab"
    ⟨"127.0.0.1", 9001, "gitlab-agent", false, none⟩ none
    (.ret (some "3fae")) (.ret none) "3fae"
    (resolveAssistantId [] "gitlab"
      ⟨"127.0.0.1", 9001, "gitlab-agent", false, none⟩ none
      (.ret (some "3fae")) (.ret none)).2.1 1 0 rfl
  exact ⟨h.1, h.2 ⟨"127.0.0.1", 9001, "gitlab-agent", false, none⟩ none .exn .exn rfl rfl⟩

/-- C6: registry discovery is consulted only when `registry_enabled`; when
the registry step is reached (cache miss, no static id, direct discovery
failed) with the flag set but no registry configuration, resolution fails
with the fatal misconfiguration error rather than falling to exhaustion;
and when every path fails to produce an id, resolution fails with
`AssistantNotResolved` naming the agent key. -/
theorem resolver_registry_gating :
    (∀ (cache : AssistantCache) (agentKey : String) (cfg : AgentConfigM)
        (regCfg : Option Unit) (d r : DiscoveryOutcome),
        cfg.registry_enabled = false →
        (resolveAssistantId cache agentKey cfg regCfg d r).2.2.2 = 0) ∧
    (∀ (cache : AssistantCache) (agentKey : String) (cfg : AgentConfigM)
        (d r : DiscoveryOutcome),
        cfg.registry_enabled = true →
        cacheGet cache (agentKey, cfg.host, cfg.port) = none →
        cfg.assistant_id = none →
        (d = .ret none ∨ d = .exn) →
        resolveAssistantId cache agentKey cfg none d r
          = (.error .misconfiguredRegistry, cache, 1, 0)) ∧
    (∀ (cache : AssistantCache) (agentKey : String) (cfg : AgentConfigM)
        (regCfg : Option Unit) (d r : DiscoveryOutcome),
        cacheGet cache (agentKey, cfg.host, cfg.port) = none →
        cfg.assistant_id = none →
        (d = .ret none ∨ d = .exn) →
        (cfg.registry_enabled = false ∨
          (regCfg.isSome ∧ (r = .ret none ∨ r = .exn))) →
        (resolveAssistantId cache agentKey cfg regCfg d r).1
          = .error (.assistantNotResolved agentKey)) := by
  refine ⟨?_, ?_, ?_⟩
  · intro cache agentKey cfg regCfg d r henb
    simp only [resolveAssistantId, henb]
    cases hc : cacheGet cache (agentKey, cfg.host, cfg.port)
    · cases hs : cfg.assistant_id
      · cases d with
        | ret found => cases found <;> simp
        | exn => simp
      · simp
    · simp
  · intro cache agentKey cfg d r henb hc hs hd
    rcases hd with rfl | rfl <;> simp [resolveAssistantId, henb, hc, hs]
  · intro cache agentKey cfg regCfg d r hc hs hd hreg
    rcases hd with rfl | rfl <;>
      rcases hreg with henb | ⟨hsome, hr⟩ <;>
      first
        | simp [resolveAssistantId, henb, hc, hs]
        | (obtain ⟨u, rfl⟩ := Option.isSome_iff_exists.mp hsome
           rcases hr with rfl | rfl <;>
             cases henb2 : cfg.registry_enabled <;>
             simp [resolveAssistantId, henb2, hc, hs])

/-- Witness for C6 at concrete inputs: a disabled registry is never
queried; a reached-but-unconfigured registry is the fatal error; full
exhaustion names the agent key. -/
theorem resolver_registry_gating_witness :
    (resolveAssistantId [] "k" ⟨"h", 1, "n", false, none⟩ none .exn (.ret (some "x"))).2.2.2
      = 0 ∧
    resolveAssistantId [] "k" ⟨"h", 1, "n", true, none⟩ none (.ret none) .exn
      = (.error .misconfiguredRegistry, [], 1, 0) ∧
    (resolveAssistantId [] "k" ⟨"h", 1, "n", true, none⟩ (some ()) (.ret none) (.ret none)).1
      = .error (.assistantNotResolved "k") := by
  refine ⟨?_, ?_, ?_⟩
  · exact resolver_registry_gating.1 [] "k" ⟨"h", 1, "n", false, none⟩ none .exn
      (.ret (some "x")) rfl
  · exact resolver_registry_gating.2.1 [] "k" ⟨"h", 1, "n", true, none⟩ (.ret none) .exn
      rfl rfl rfl (Or.inl rfl)
  · exact resolver_registry_gating.2.2 [] "k" ⟨"h", 1, "n", true, none⟩ (some ())
      (.ret none) (.ret none) rfl rfl (Or.inl rfl) (Or.inr ⟨rfl, Or.inl rfl⟩)

/-- C10: a discovery record that matches the configured name but lacks a
truthy `assistant_id` is excluded by the match filter, so a reply whose
records all lack a truthy `assistant_id` counts as zero matches and yields
`None` — falling through to the next strategy — rather than raising a
key/parse error. -/
theorem search_requires_truthy_assistant_id (xs : List Json) (cfg : AgentConfigM)
    (hobj : ∀ a ∈ xs, a.isObj = true)
    (hid : ∀ a ∈ xs, ((a.get "assistant_id").getD .null).truthy = false) :
    searchOnTargetDecoded (.arr xs) cfg = .ok none := by
  have hall : xs.all (·.isObj) = true := by
    rw [List.all_eq_true]
    exact hobj
  have hfilter : (xs.filter fun a =>
      optEqStr (a.get "name") cfg.name
        && ((a.get "assistant_id").getD .null).truthy) = [] := by
    rw [List.filter_eq_nil_iff]
    intro a ha
    simp [hid a ha]
  simp [searchOnTargetDecoded, hall, hfilter]

/-- Witness for C10: a reply with one record whose name matches the
configured name but which has no `assistant_id` field. -/
theorem search_requires_truthy_assistant_id_witness :
    searchOnTargetDecoded (.arr [.obj [("name", .str "gitlab-agent")]])
        ⟨"127.0.0.1", 9001, "gitlab-agent", false, none⟩
      = .ok none := by
  refine search_requires_truthy_assistant_id [.obj [("name", .str "gitlab-agent")]]
    ⟨"127.0.0.1", 9001, "gitlab-agent", false, none⟩ ?_ ?_ <;>
    · intro a ha
      simp only [List.mem_singleton] at ha
      subst ha
      rfl

/-- C7: the configured port is appended to the host only when the host
string does not already specify an explicit port, where "specifies an
explicit port" means a colon after the last `]` of the normalized netloc —
so a colon inside an IPv6 bracket literal is not a port separator.
Concretely on the claim's examples; generally, a host with an explicit port
makes the result independent of the configured port, and a host without one
yields a URL whose authority is the host's netloc with `:port` appended. -/
theorem url_builder_port_injection :
    (build_service_url "https://[2001:db8::1]" 9000 "assistants/search"
        = .ok "https://[2001:db8::1]:9000/assistants/search") ∧
    (build_service_url "https://example.com:9000" 8080 "/a2a/agent"
        = .ok "https://example.com:9000/a2a/agent") ∧
    (∀ (host : String) (p₁ p₂ : Nat) (ep : String) (s nl bp : List Char),
        hostParse host = .ok (s, nl, bp) →
        (afterLastChar ']' nl).contains ':' = true →
        build_service_url host p₁ ep = build_service_url host p₂ ep) ∧
    (∀ (host : String) (p : Nat) (ep : String) (s nl bp : List Char),
        hostParse host = .ok (s, nl, bp) →
        (afterLastChar ']' nl).contains ':' = false →
        netlocPort nl = .ok none →
        ∃ rest : List Char,
          build_service_url host p ep
            = .ok (((if s.isEmpty then "http".toList else s) ++ "://".toList
                ++ (nl ++ ':' :: (toString p).toList) ++ rest).asString)) := by
  refine ⟨rfl, rfl, ?_, ?_⟩
  · intro host p₁ p₂ ep s nl bp hh ht
    simp only [build_service_url, hh, ht]
    cases hp : netlocPort nl <;> simp
  · intro host p ep s nl bp hh ht hp
    refine ⟨composePath bp ep, ?_⟩
    simp only [build_service_url, hh, ht, hp]
    simp

/-- Witness for C7: the explicit-port and port-append general parts at the
claim's hosts. -/
theorem url_builder_port_injection_witness :
    build_service_url "https://example.com:9000" 1111 "/a2a/agent"
      = build_service_url "https://example.com:9000" 2222 "/a2a/agent" ∧
    ∃ rest : List Char,
      build_service_url "https://[2001:db8::1]" 9000 "assistants/search"
        = .ok ((("https".toList) ++ "://".toList
            ++ ("[2001:db8::1]".toList ++ ':' :: (toString 9000).toList)
            ++ rest).asString) := by
  constructor
  · exact url_builder_port_injection.2.2.1 "https://example.com:9000" 1111 2222
      "/a2a/agent" "https".toList "example.com:9000".toList [] rfl rfl
  · have h := url_builder_port_injection.2.2.2 "https://[2001:db8::1]" 9000
      "assistants/search" "https".toList "[2001:db8::1]".toList [] rfl rfl rfl
    simpa using h

/-- C8: a host string that after normalization yields no authority — in
particular the empty string and the bare scheme `"https://"` — makes
`build_service_url` fail with the invalid-host `ValueError` rather than
return a URL: every host accepted by `hostParse` has a non-empty netloc,
and every host it rejects propagates its error through
`build_service_url`. -/
theorem url_builder_invalid_host :
    (∀ (p : Nat) (ep : String),
        build_service_url "" p ep = .error .emptyHost) ∧
    (∀ (p : Nat) (ep : String),
        build_service_url "https://" p ep = .error .noHostname) ∧
    (∀ (host : String) (p : Nat) (ep : String) (err : UrlErr),
        hostParse host = .error err → build_service_url host p ep = .error err) ∧
    (∀ (host : String) (s nl bp : List Char),
        hostParse host = .ok (s, nl, bp) → nl ≠ []) := by
  refine ⟨fun p ep => rfl, fun p ep => rfl, ?_, ?_⟩
  · intro host p ep err h
    simp only [build_service_url, h]
  · intro host s nl bp h
    simp only [hostParse] at h
    repeat' split at h
    all_goals simp_all

/-- Witness for C8: the bare-scheme host propagates its error; the accepted
plain host has a non-empty netloc. -/
theorem url_builder_invalid_host_witness :
    build_service_url "https://" 8000 "/assistants/search" = .error .noHostname ∧
    ("example.com".toList : List Char) ≠ [] := by
  constructor
  · exact url_builder_invalid_host.2.2.1 "https://" 8000 "/assistants/search"
      .noHostname rfl
  · exact url_builder_invalid_host.2.2.2 "example.com" "http".toList
      "example.com".toList [] rfl

end AgenticRouter

